import Mathlib

set_option maxRecDepth 8000

/-!
# Verification of the trade-simulation core

Shallow embedding of the backtesting engine
(`backend/app/backtesting/engine.py`) and the paper-trading engine
(`backend/app/paper_trading/engine.py`) of the Crypto-Trading-Bot
repository, together with proofs and refutations of the specification's
claims about them.

Conventions used throughout:
* Python `float` prices, quantities and cash are embedded as `ℚ`
  (exact arithmetic; the claims under study are algebraic accounting and
  control-flow properties, not rounding properties).  The one place where
  IEEE-754 non-finite values are semantically load-bearing — the RSI
  division by a zero average loss — is embedded with an explicit
  `PFloat` type carrying `inf` and `nan`.
* `datetime` timestamps are embedded as `ℕ`.
* The backtest engine only ever reads and writes the single key
  `config.symbol` of `portfolio.positions`, so that dict is embedded as
  one `ℚ` cell.
* Python `Optional[float]` fields tested with `if x:` use
  `Option ℚ` plus `optTruthy` (both `None` and `0.0` are falsy).
-/

namespace CryptoBot

/-- Truthiness of a Python `Optional[float]`: `if x:` is false for both
`None` and `0.0`. -/
def optTruthy (x : Option ℚ) : Bool :=
  match x with
  | none => false
  | some q => decide (q ≠ 0)

/-- Python `a or b` for `a : Optional[float]`: falls back to `b` when `a`
is `None` or `0.0`. -/
def pyOr (x : Option ℚ) (dflt : ℚ) : ℚ :=
  match x with
  | none => dflt
  | some q => if q ≠ 0 then q else dflt

/-! ## Backtest engine data model (`backtesting/engine.py` lines 24-92) -/

/-- `OrderSide` enum (engine.py lines 24-26). -/
inductive OrderSide
  | long
  | short
deriving DecidableEq, Repr

/-- `ExitReason` enum (engine.py lines 29-34). -/
inductive ExitReason
  | signal
  | stop_loss
  | take_profit
  | end_of_data
  | max_duration
deriving DecidableEq, Repr

/-- The `Trade` dataclass (engine.py lines 37-55).  The two `*_signal_data`
dict fields are omitted: the engine never reads them back. -/
structure Trade where
  trade_id : ℕ
  side : OrderSide
  entry_price : ℚ
  quantity : ℚ
  entry_time : ℕ
  stop_loss_price : Option ℚ := none
  take_profit_price : Option ℚ := none
  exit_price : Option ℚ := none
  exit_time : Option ℕ := none
  exit_reason : Option ExitReason := none
  pnl : Option ℚ := none
  pnl_pct : Option ℚ := none
  fees : ℚ := 0
deriving DecidableEq, Repr

/-- The `Portfolio` dataclass (engine.py lines 58-73).  `positions` is the
value stored under the run's single `config.symbol` key (0 when the key is
absent: every read in the source uses `.get(symbol, 0)` or filters on that
key). -/
structure Portfolio where
  cash : ℚ
  positions : ℚ
  open_trades : List Trade
  closed_trades : List Trade
  equity_history : List (ℕ × ℚ)
deriving DecidableEq, Repr

/-- The configuration fields of the `Backtest` model the engine reads
(`models/backtest.py` lines 52-60). -/
structure BacktestConfig where
  initial_capital : ℚ
  max_position_size : Option ℚ
  stop_loss_pct : Option ℚ
  take_profit_pct : Option ℚ
  commission : ℚ
deriving DecidableEq, Repr

/-- `BacktestEngine.calculate_position_size` (engine.py lines 312-323):
`max_position_pct = config.max_position_size or 25.0`;
`quantity = cash * (max_position_pct/100) / entry_price`. -/
def calculate_position_size (cfg : BacktestConfig) (cash entry_price : ℚ) : ℚ :=
  let max_position_pct := pyOr cfg.max_position_size 25
  let max_position_value := cash * (max_position_pct / 100)
  max_position_value / entry_price

/-- Stop-loss price assignment in `open_trade` (engine.py lines 353-357):
only set when `config.stop_loss_pct` is truthy. -/
def stop_loss_for (cfg : BacktestConfig) (side : OrderSide) (price : ℚ) : Option ℚ :=
  if optTruthy cfg.stop_loss_pct then
    let pct := cfg.stop_loss_pct.getD 0
    some (if side = OrderSide.long then price * (1 - pct / 100) else price * (1 + pct / 100))
  else none

/-- Take-profit price assignment in `open_trade` (engine.py lines 359-363). -/
def take_profit_for (cfg : BacktestConfig) (side : OrderSide) (price : ℚ) : Option ℚ :=
  if optTruthy cfg.take_profit_pct then
    let pct := cfg.take_profit_pct.getD 0
    some (if side = OrderSide.long then price * (1 + pct / 100) else price * (1 - pct / 100))
  else none

/-- Return value of `open_trade`: the optional new trade, the updated
portfolio, and the updated `trade_counter`. -/
structure OpenResult where
  trade : Option Trade
  portfolio : Portfolio
  counter : ℕ
deriving DecidableEq, Repr

/-- `BacktestEngine.open_trade` (engine.py lines 325-376).  Sizing, fee
calculation, the insufficient-cash guard (line 336: reject before any
portfolio mutation), then the cash debit, the `positions` update — note
the source adds `quantity * current_price`, a dollar value, under the
symbol key (lines 367-368) — and the append to `open_trades`. -/
def open_trade (cfg : BacktestConfig) (p : Portfolio) (counter : ℕ) (side : OrderSide)
    (timestamp : ℕ) (current_price : ℚ) : OpenResult :=
  let quantity := calculate_position_size cfg p.cash current_price
  let trade_value := quantity * current_price
  let fees := trade_value * cfg.commission
  if p.cash < trade_value + fees then
    { trade := none, portfolio := p, counter := counter }
  else
    let trade : Trade :=
      { trade_id := counter + 1
        side := side
        entry_price := current_price
        quantity := quantity
        entry_time := timestamp
        stop_loss_price := stop_loss_for cfg side current_price
        take_profit_price := take_profit_for cfg side current_price
        fees := fees }
    let position_value :=
      if side = OrderSide.long then quantity * current_price else -(quantity * current_price)
    { trade := some trade
      portfolio :=
        { p with
          cash := p.cash - (trade_value + fees)
          positions := p.positions + position_value
          open_trades := p.open_trades ++ [trade] }
      counter := counter + 1 }

/-- The closed-trade record produced by `close_trade` (engine.py lines
383-400): raw price pnl, exit fee netted from `pnl`, exit fee added to
`fees`, `pnl_pct` relative to entry value. -/
def mk_closed_trade (cfg : BacktestConfig) (trade : Trade) (timestamp : ℕ)
    (reason : ExitReason) (exit_price : ℚ) : Trade :=
  let pnl :=
    if trade.side = OrderSide.long then (exit_price - trade.entry_price) * trade.quantity
    else (trade.entry_price - exit_price) * trade.quantity
  let exit_fees := trade.quantity * exit_price * cfg.commission
  { trade with
    exit_price := some exit_price
    exit_time := some timestamp
    exit_reason := some reason
    pnl := some (pnl - exit_fees)
    pnl_pct := some ((pnl - exit_fees) / (trade.quantity * trade.entry_price) * 100)
    fees := trade.fees + exit_fees }

/-- `BacktestEngine.close_trade` (engine.py lines 378-417).
`exit_price = exit_data.get('exit_price', close)`; the trade record is
updated, cash is credited with `trade_value - exit_fees`, the symbol's
`positions` entry is debited by `quantity * exit_price` (signed by side),
the trade is removed from `open_trades` and appended to `closed_trades`.
If the trade is not in `open_trades`, Python's `list.remove` raises and
the surrounding `except` leaves the two trade lists unchanged (cash and
positions are already mutated at that point). -/
def close_trade (cfg : BacktestConfig) (p : Portfolio) (trade : Trade) (timestamp : ℕ)
    (reason : ExitReason) (exit_data_price : Option ℚ) (bar_close : ℚ) : Portfolio :=
  let exit_price := exit_data_price.getD bar_close
  let closed := mk_closed_trade cfg trade timestamp reason exit_price
  let trade_value := trade.quantity * exit_price
  let exit_fees := trade_value * cfg.commission
  let position_value :=
    if trade.side = OrderSide.long then trade_value else -trade_value
  let p' :=
    { p with
      cash := p.cash + (trade_value - exit_fees)
      positions := p.positions - position_value }
  if trade ∈ p.open_trades then
    { p' with
      open_trades := p.open_trades.eraseP (fun t => decide (t = trade))
      closed_trades := p.closed_trades ++ [closed] }
  else p'

/-- `BacktestEngine.update_portfolio_metrics` (engine.py lines 419-430).
The source multiplies the stored `positions` entry — which `open_trade`
filled with `quantity * price`, a dollar value — by the current close
price again, and records `cash + positions * close` on the equity curve.
The embedding reproduces this verbatim. -/
def update_portfolio_metrics (p : Portfolio) (timestamp : ℕ) (current_price : ℚ) : Portfolio :=
  let total_position_value := p.positions * current_price
  let total_equity := p.cash + total_position_value
  { p with equity_history := p.equity_history ++ [(timestamp, total_equity)] }

/-- Stop-loss branch of `evaluate_exit_conditions` (engine.py lines
244-249), guarded by the truthiness of `trade.stop_loss_price`. -/
def sl_exit (trade : Trade) (close : ℚ) : Option (ExitReason × ℚ) :=
  match trade.stop_loss_price with
  | none => none
  | some sl =>
    if sl = 0 then none
    else if trade.side = OrderSide.long ∧ close ≤ sl then some (ExitReason.stop_loss, sl)
    else if trade.side = OrderSide.short ∧ sl ≤ close then some (ExitReason.stop_loss, sl)
    else none

/-- Take-profit branch of `evaluate_exit_conditions` (engine.py lines
252-256). -/
def tp_exit (trade : Trade) (close : ℚ) : Option (ExitReason × ℚ) :=
  match trade.take_profit_price with
  | none => none
  | some tp =>
    if tp = 0 then none
    else if trade.side = OrderSide.long ∧ tp ≤ close then some (ExitReason.take_profit, tp)
    else if trade.side = OrderSide.short ∧ close ≤ tp then some (ExitReason.take_profit, tp)
    else none

/-- `BacktestEngine.evaluate_exit_conditions` (engine.py lines 234-282):
stop-loss first, then take-profit, then the strategy exit condition.
`exit_signal` is the boolean outcome of `_evaluate_condition` on the exit
condition for the trade's side; the returned rational is the
`exit_price` entry of the returned exit-data dict. -/
def evaluate_exit_conditions (trade : Trade) (close : ℚ) (exit_signal : Bool) :
    Option (ExitReason × ℚ) :=
  match sl_exit trade close with
  | some r => some r
  | none =>
    match tp_exit trade close with
    | some r => some r
    | none => if exit_signal then some (ExitReason.signal, close) else none

/-- The mutable engine state carried through `run_backtest`. -/
structure EngineState where
  portfolio : Portfolio
  counter : ℕ
deriving DecidableEq, Repr

/-- The exit pass of the bar loop (engine.py lines 454-458): fold over
the snapshot (`.copy()`) of the open trades taken at the top of the bar,
closing each trade whose exit conditions fire. -/
def process_exits (cfg : BacktestConfig) (exit_sig : OrderSide → Bool)
    (t : ℕ) (close : ℚ) (snapshot : List Trade) (p : Portfolio) : Portfolio :=
  snapshot.foldl (fun acc trade =>
    match evaluate_exit_conditions trade close (exit_sig trade.side) with
    | some (reason, price) => close_trade cfg acc trade t reason (some price) close
    | none => acc) p

/-- The entry pass of the bar loop (engine.py lines 463-466): the
open-trade count is rechecked against the hardcoded `3` before each
signal. -/
def process_entries (cfg : BacktestConfig) (sigs : List OrderSide)
    (t : ℕ) (close : ℚ) (s : EngineState) : EngineState :=
  sigs.foldl (fun st side =>
    if st.portfolio.open_trades.length < 3 then
      let r := open_trade cfg st.portfolio st.counter side t close
      { portfolio := r.portfolio, counter := r.counter }
    else st) s

/-- One iteration of `run_backtest`'s bar loop (engine.py lines 446-469):
exit evaluation over a snapshot of the open trades, then entry evaluation
under the hardcoded `len(open_trades) < 3` cap, then
`update_portfolio_metrics`.  `entry_sig t = (long, short)` and
`exit_sig t side` are the boolean outcomes of `_evaluate_condition` on
the respective strategy conditions at bar `t`; a bar is `(timestamp,
close)`. -/
def process_bar (cfg : BacktestConfig)
    (entry_sig : ℕ → Bool × Bool) (exit_sig : ℕ → OrderSide → Bool)
    (s : EngineState) (bar : ℕ × ℚ) : EngineState :=
  let t := bar.1
  let close := bar.2
  let p1 := process_exits cfg (exit_sig t) t close s.portfolio.open_trades s.portfolio
  let sigs : List OrderSide :=
    (if (entry_sig t).1 then [OrderSide.long] else []) ++
    (if (entry_sig t).2 then [OrderSide.short] else [])
  let s2 : EngineState :=
    if p1.open_trades.length < 3 then
      process_entries cfg sigs t close { portfolio := p1, counter := s.counter }
    else { portfolio := p1, counter := s.counter }
  { s2 with portfolio := update_portfolio_metrics s2.portfolio t close }

/-- The engine's starting state (engine.py lines 82-92). -/
def initial_state (cfg : BacktestConfig) : EngineState :=
  { portfolio :=
      { cash := cfg.initial_capital
        positions := 0
        open_trades := []
        closed_trades := []
        equity_history := [] }
    counter := 0 }

/-- `BacktestEngine.run_backtest` (engine.py lines 432-478): fold the bar
loop over the data, then force-close the remaining open trades at the
last processed timestamp with reason `end_of_data` and empty exit data
(so the exit price defaults to the last bar's close).  With no bars the
force-close's price lookup raises inside `close_trade`'s `except` and
nothing changes. -/
def run_backtest (cfg : BacktestConfig)
    (entry_sig : ℕ → Bool × Bool) (exit_sig : ℕ → OrderSide → Bool)
    (bars : List (ℕ × ℚ)) : EngineState :=
  let s := bars.foldl (process_bar cfg entry_sig exit_sig) (initial_state cfg)
  match bars.getLast? with
  | none => s
  | some (t, close) =>
    { s with
      portfolio := s.portfolio.open_trades.foldl
        (fun acc trade => close_trade cfg acc trade t ExitReason.end_of_data none close)
        s.portfolio }

/-- The `pnl` of a closed trade; `_calculate_results` reads `t.pnl`
directly, which is always populated on closed trades. -/
def pnl0 (t : Trade) : ℚ := t.pnl.getD 0

/-- `winning_trades` filter of `_calculate_results` (engine.py line 498). -/
def winning_trades (trades : List Trade) : List Trade :=
  trades.filter (fun t => 0 < pnl0 t)

/-- `losing_trades` filter of `_calculate_results` (engine.py line 499):
note `pnl <= 0`, so zero-pnl trades count as losers. -/
def losing_trades (trades : List Trade) : List Trade :=
  trades.filter (fun t => pnl0 t ≤ 0)

/-- The `profit_factor` expression of `_calculate_results` (engine.py line
504): `abs(Σ winner.pnl / Σ loser.pnl)` when there is at least one losing
trade and the losers' pnl sum is nonzero, and `0` otherwise. -/
def profit_factor_of (trades : List Trade) : ℚ :=
  let losers := losing_trades trades
  let loss_sum := (losers.map pnl0).sum
  if losers ≠ [] ∧ loss_sum ≠ 0 then
    |((winning_trades trades).map pnl0).sum / loss_sum|
  else 0

/-! ## RSI (`_calculate_rsi`, engine.py lines 179-186)

The prices flow through pandas as IEEE-754 doubles.  The arithmetic on
finite values is embedded exactly over `ℚ`; the semantically relevant
non-finite outcomes of the two divisions (`gain/loss` and
`100/(1+rs)`) are carried by an explicit type: a positive number divided
by zero is `inf`, `0/0` is `nan`, and `100 - 100/(1+inf) = 100 - 0`. -/

/-- An IEEE-754 double restricted to what `_calculate_rsi` can produce:
an exact finite value, `±inf`, or `nan`. -/
inductive PFloat
  | val (q : ℚ)
  | inf
  | ninf
  | nan
deriving DecidableEq, Repr

/-- Float division of two finite values (numpy semantics): finite
quotient when the divisor is nonzero, signed infinity when a nonzero
value is divided by zero, `nan` for `0/0`. -/
def pdivQ (a b : ℚ) : PFloat :=
  if b ≠ 0 then PFloat.val (a / b)
  else if 0 < a then PFloat.inf
  else if a < 0 then PFloat.ninf
  else PFloat.nan

/-- `rsi = 100 - 100/(1 + rs)` (engine.py line 185) as a function of the
float `rs`, with IEEE semantics for non-finite `rs`:
`1 + inf = inf`, `100/inf = 0`, so `rs = inf` gives exactly `100`. -/
def rsi_from_rs : PFloat → PFloat
  | PFloat.val q => if 1 + q ≠ 0 then PFloat.val (100 - 100 / (1 + q)) else PFloat.ninf
  | PFloat.inf => PFloat.val 100
  | PFloat.ninf => PFloat.val 100
  | PFloat.nan => PFloat.nan

/-- `prices.diff()` (engine.py line 181) without its leading `NaN`:
element `k` is `prices[k+1] - prices[k]`. -/
def deltas (prices : List ℚ) : List ℚ :=
  List.zipWith (fun a b => a - b) prices.tail prices

/-- `delta.where(delta > 0, 0)` (engine.py line 182). -/
def gain_series (prices : List ℚ) : List ℚ :=
  (deltas prices).map (fun d => max d 0)

/-- `-delta.where(delta < 0, 0)` (engine.py line 183). -/
def loss_series (prices : List ℚ) : List ℚ :=
  (deltas prices).map (fun d => max (-d) 0)

/-- The length-`period` slice of `l` ending at index `i - 1`: the window
`rolling(window=period)` aggregates at row `i` of the price series, whose
delta at row `k` sits at index `k - 1` of `deltas`. -/
def rolling_window (l : List ℚ) (period i : ℕ) : List ℚ :=
  (l.drop (i - period)).take period

/-- Arithmetic mean of a window (`rolling(...).mean()`). -/
def window_mean (l : List ℚ) : ℚ := l.sum / l.length

/-- `_calculate_rsi` at row `i` of the price series, for rows
`period ≤ i < prices.length` where both rolling windows are full (pandas
yields `NaN` for earlier rows because the window still contains the
`diff()`'s leading `NaN` or too few points). -/
def rsi_at (prices : List ℚ) (period i : ℕ) : PFloat :=
  let gain := window_mean (rolling_window (gain_series prices) period i)
  let loss := window_mean (rolling_window (loss_series prices) period i)
  rsi_from_rs (pdivQ gain loss)

/-! ## Condition evaluator (`_evaluate_condition`, engine.py lines 284-310)

String plumbing is embedded over `List Char` with executable definitions
mirroring Python's `str.replace`, substring test and `str.lower`.  The
`eval` builtin applied to the substituted text is an external collaborator
(CPython), not repository code: the evaluator is parametric in an oracle
`py_eval : String → Option PyVal`, where `none` embeds "raises an
exception" and `some v` a returned value. -/

/-- A value Python's `eval` can return for the expressions at hand:
a boolean or a number. -/
inductive PyVal
  | bool (b : Bool)
  | num (q : ℚ)
deriving DecidableEq, Repr

/-- Python `pat in s` on character lists (empty pattern matches). -/
def substr_in (pat : List Char) : List Char → Bool
  | [] => pat.isEmpty
  | c :: rest => pat.isPrefixOf (c :: rest) || substr_in pat rest

/-- Scanning loop of Python `s.replace(pat, repl)`: leftmost
non-overlapping occurrences.  Structural recursion on a fuel argument
(instantiated with the text length, which bounds the number of scanning
steps) keeps the definition kernel-reducible. -/
def replace_go (pat repl : List Char) : ℕ → List Char → List Char
  | 0, s => s
  | _ + 1, [] => []
  | fuel + 1, c :: rest =>
    if ¬ pat.isEmpty ∧ pat.isPrefixOf (c :: rest) then
      repl ++ replace_go pat repl fuel ((c :: rest).drop pat.length)
    else c :: replace_go pat repl fuel rest

/-- Python `s.replace(pat, repl)` on character lists.  (The source only
calls this with nonempty patterns: variable names.) -/
def replace_sub (pat repl s : List Char) : List Char :=
  replace_go pat repl s.length s

/-- Python `pat in s` on strings. -/
def str_in (pat s : String) : Bool := substr_in pat.toList s.toList

/-- Python `s.replace(pat, repl)` on strings. -/
def str_replace (s pat repl : String) : String :=
  String.mk (replace_sub pat.toList repl.toList s.toList)

/-- ASCII lower-casing of one character (`str.lower` restricted to the
ASCII condition strings at hand). -/
def lower_char (c : Char) : Char :=
  if 'A' ≤ c ∧ c ≤ 'Z' then Char.ofNat (c.toNat + 32) else c

/-- Python `s.lower()` on strings. -/
def str_lower (s : String) : String := String.mk (s.toList.map lower_char)

/-- The variable substitution loop of `_evaluate_condition` (engine.py
lines 292-295): each supplied variable name occurring in the working text
is replaced by the `str()` rendering of its value.  `values` is the
insertion-ordered `(name, rendered value)` list. -/
def substitute_vars (condition : String) (values : List (String × String)) : String :=
  values.foldl
    (fun acc kv => if str_in kv.1 acc then str_replace acc kv.1 kv.2 else acc) condition

/-- `dangerous_keywords` (engine.py line 298). -/
def dangerous_keywords : List String :=
  ["import", "exec", "eval", "__", "open", "file"]

/-- The keyword scan of `_evaluate_condition` (engine.py line 299),
applied to the lower-cased text *after* substitution. -/
def contains_dangerous (s : String) : Bool :=
  dangerous_keywords.any (fun k => str_in k (str_lower s))

/-- The comparison-operator gate of `_evaluate_condition` (engine.py line
304). -/
def has_comparison (s : String) : Bool :=
  str_in ">" s || str_in "<" s || str_in "==" s

/-- `BacktestEngine._evaluate_condition` (engine.py lines 284-310):
empty condition is falsy; variables are substituted; the dangerous-token
scan runs on the substituted text; only texts containing a comparison
operator reach `eval`, whose raised exceptions (`none`) are caught and
resolved to `False`; everything else returns `False`.  The Lean function
is total: no path raises. -/
def evaluate_condition (py_eval : String → Option PyVal)
    (condition : String) (values : List (String × String)) : PyVal :=
  if condition = "" then PyVal.bool false
  else
    let ec := substitute_vars condition values
    if contains_dangerous ec then PyVal.bool false
    else if has_comparison ec then
      match py_eval ec with
      | some v => v
      | none => PyVal.bool false
    else PyVal.bool false

/-! ## Paper-trading engine (`paper_trading/engine.py`)

One session trades one symbol (`session.symbol`), so the per-symbol dicts
(`current_positions`, `latest_prices`, `indicator_values`,
`last_signal_time`) are embedded as single cells.  Database writes and
alerts are external side effects with no bearing on the in-memory state
the claims talk about; order placements are recorded as emitted
`PaperAction`s (the source's `place_order` only persists the order and —
for non-market orders — registers it as pending). -/

/-- The `PositionInfo` dataclass (paper engine lines 39-48).  `side` is
the literal string `"long"` or `"short"` as in the source. -/
structure PositionInfo where
  side : String
  quantity : ℚ
  entry_price : ℚ
  current_price : ℚ
  unrealized_pnl : ℚ
  unrealized_pnl_pct : ℚ
deriving DecidableEq, Repr

/-- The `PaperTradingSession` fields the engine reads
(`models/paper_trading.py` lines 55-79), with `status` reduced to whether
it equals `ACTIVE`. -/
structure PaperSession where
  status_active : Bool
  update_interval : ℕ
  stop_loss_pct : Option ℚ
  take_profit_pct : Option ℚ
  max_position_size : ℚ
deriving DecidableEq, Repr

/-- Whether the strategy's `entry_conditions` JSON has truthy `long` /
`short` entries (paper engine lines 445, 463). -/
structure PaperStrategy where
  has_long : Bool
  has_short : Bool
deriving DecidableEq, Repr

/-- A pending `PaperOrder` as the fill simulator reads it. -/
structure PaperOrder where
  order_id : ℕ
  side : String
  order_type : String
  quantity : ℚ
  price : Option ℚ
deriving DecidableEq, Repr

/-- The engine's in-memory mutable state: the (single-symbol) position
cache, pending orders, latest price, the three incremental indicator
cells plus the `last_price` cell and whether `indicator_values[symbol]`
exists at all, the rate-limiter timestamp, and
`session.current_capital`. -/
structure PaperState where
  position : Option PositionInfo
  pending_orders : List PaperOrder
  latest_price : Option ℚ
  indicators_present : Bool
  sma20 : Option ℚ
  sma50 : Option ℚ
  rsi : Option ℚ
  last_price : Option ℚ
  last_signal_time : Option ℕ
  capital : ℚ
deriving DecidableEq, Repr

/-- An order placement the engine emits during one tick: a market entry
order from `process_entry_signal`, or a closing market order from
`close_position` tagged with its `exit_reason` signal data. -/
inductive PaperAction
  | entry_order (side : String) (quantity : ℚ)
  | close_order (exit_reason : String) (exit_price : ℚ)
deriving DecidableEq, Repr

/-- `PaperTradingEngine.update_position_pnl` (paper engine lines
194-209): refresh the cached position's current price and unrealized
P&L. -/
def update_position_pnl (st : PaperState) (current_price : ℚ) : PaperState :=
  match st.position with
  | none => st
  | some pos =>
    let upnl :=
      if pos.side = "long" then (current_price - pos.entry_price) * pos.quantity
      else (pos.entry_price - current_price) * pos.quantity
    { st with
      position := some
        { pos with
          current_price := current_price
          unrealized_pnl := upnl
          unrealized_pnl_pct := upnl / (pos.quantity * pos.entry_price) * 100 } }

/-- Fill decision of `check_pending_orders` (paper engine lines 215-234):
market orders always fill, at `ask`/`bid` with a `price × (1 ± 0.001)`
fallback (Python `or`, so a zero book price also falls back); limit buys
fill at the limit when `tick.price ≤ limit`, limit sells when
`tick.price ≥ limit`.  A pending limit order with no price would raise in
the source; such orders are not constructible there. -/
def fill_price_for (order : PaperOrder) (tick_price : ℚ) (bid ask : Option ℚ) : Option ℚ :=
  if order.order_type = "market" then
    some (if order.side = "buy" then pyOr ask (tick_price * (1001 / 1000))
          else pyOr bid (tick_price * (999 / 1000)))
  else if order.order_type = "limit" then
    match order.price with
    | some lim =>
      if order.side = "buy" ∧ tick_price ≤ lim then some lim
      else if order.side = "sell" ∧ tick_price ≥ lim then some lim
      else none
    | none => none
  else none

/-- `PaperTradingEngine.update_position_after_fill` (paper engine lines
294-361): weighted-average accumulation when adding in the same
direction, reduction with flip handling when the fill opposes the
position, creation of a fresh position otherwise.  `none` models
`is_open = False`. -/
def update_position_after_fill (pos? : Option PositionInfo) (order : PaperOrder)
    (fill_price : ℚ) : Option PositionInfo :=
  match pos? with
  | some ex =>
    if order.side = "buy" then
      if ex.side = "long" then
        let total_value := ex.quantity * ex.entry_price + order.quantity * fill_price
        let total_quantity := ex.quantity + order.quantity
        some { ex with entry_price := total_value / total_quantity, quantity := total_quantity }
      else
        let q := ex.quantity - order.quantity
        if q < 0 then some { ex with side := "long", quantity := |q|, entry_price := fill_price }
        else if q = 0 then none
        else some { ex with quantity := q }
    else
      if ex.side = "long" then
        let q := ex.quantity - order.quantity
        if q < 0 then some { ex with side := "short", quantity := |q|, entry_price := fill_price }
        else if q = 0 then none
        else some { ex with quantity := q }
      else
        let total_value := ex.quantity * ex.entry_price + order.quantity * fill_price
        let total_quantity := ex.quantity + order.quantity
        some { ex with entry_price := total_value / total_quantity, quantity := total_quantity }
  | none =>
    some
      { side := if order.side = "buy" then "long" else "short"
        quantity := order.quantity
        entry_price := fill_price
        current_price := fill_price
        unrealized_pnl := 0
        unrealized_pnl_pct := 0 }

/-- `PaperTradingEngine.check_pending_orders` + `fill_order` (paper
engine lines 211-292): each pending order for the tick's symbol that
crosses is filled — 0.1% commission, capital debited (buy) or credited
(sell), position updated — and removed from the pending set. -/
def check_pending_orders (st : PaperState) (tick_price : ℚ) (bid ask : Option ℚ) :
    PaperState :=
  st.pending_orders.foldl
    (fun acc order =>
      match fill_price_for order tick_price bid ask with
      | some fp =>
        let trade_value := order.quantity * fp
        let commission := trade_value * (1 / 1000)
        { acc with
          position := update_position_after_fill acc.position order fp
          capital :=
            if order.side = "buy" then acc.capital - (trade_value + commission)
            else acc.capital + (trade_value - commission)
          pending_orders := acc.pending_orders.filter (fun o => o.order_id ≠ order.order_id) }
      | none => acc)
    st

/-- `PaperTradingEngine.calculate_real_time_indicators` (paper engine
lines 389-428): exponential-smoothing cells for `sma_20`/`sma_50`
(seeded with the first tick), the `±1`-step RSI approximation clamped to
`[0, 100]` (seeded at 50 without stepping), and the `last_price` cell. -/
def calculate_real_time_indicators (st : PaperState) (price : ℚ) : PaperState :=
  let sma20 :=
    match st.sma20 with
    | none => price
    | some s => (2 / 21) * price + (1 - 2 / 21) * s
  let sma50 :=
    match st.sma50 with
    | none => price
    | some s => (2 / 51) * price + (1 - 2 / 51) * s
  let rsi :=
    match st.rsi with
    | none => (50 : ℚ)
    | some r =>
      let price_change := price - st.last_price.getD price
      if 0 < price_change then min 100 (r + 1)
      else if price_change < 0 then max 0 (r - 1)
      else r
  { st with
    indicators_present := true
    sma20 := some sma20
    sma50 := some sma50
    rsi := some rsi
    last_price := some price }

/-- `PaperTradingEngine.evaluate_entry_conditions` (paper engine lines
430-476): no signals without an indicator cell or with an existing
position; a `"buy"` signal on the hardcoded SMA crossover when the
strategy has a long condition; a `"sell"` signal on RSI > 70 when it has
a short condition. -/
def paper_entry_signals (strat : PaperStrategy) (st : PaperState) : List String :=
  if ¬ st.indicators_present then []
  else if st.position.isSome then []
  else
    let sma20 := st.sma20.getD 0
    let sma50 := st.sma50.getD 0
    let rsi := st.rsi.getD 50
    (if strat.has_long ∧ (sma50 < sma20 ∧ 0 < sma20 ∧ 0 < sma50) then ["buy"] else []) ++
    (if strat.has_short ∧ 70 < rsi then ["sell"] else [])

/-- `PaperTradingEngine.evaluate_exit_conditions` (paper engine lines
478-507): stop-loss, then take-profit, then the hardcoded RSI > 70
signal exit — every closing branch requires `position.side == "long"`.
Returns the `close_position` call's `(exit_reason, exit_price)` if any. -/
def paper_evaluate_exit_conditions (sess : PaperSession) (st : PaperState)
    (tick_price : ℚ) : Option (String × ℚ) :=
  match st.position with
  | none => none
  | some pos =>
    if optTruthy sess.stop_loss_pct ∧ pos.side = "long" ∧
        tick_price ≤ pos.entry_price * (1 - sess.stop_loss_pct.getD 0 / 100) then
      some ("stop_loss", tick_price)
    else if optTruthy sess.take_profit_pct ∧ pos.side = "long" ∧
        pos.entry_price * (1 + sess.take_profit_pct.getD 0 / 100) ≤ tick_price then
      some ("take_profit", tick_price)
    else if st.indicators_present ∧ pos.side = "long" ∧ 70 < st.rsi.getD 50 then
      some ("signal", tick_price)
    else none

/-- `PaperTradingEngine.evaluate_strategy` (paper engine lines 363-387).
If the previous evaluation for the symbol is less than `update_interval`
seconds old, the method returns immediately — before the indicator
update, before entry evaluation and, notably, before
`evaluate_exit_conditions`.  Otherwise: indicators, entry conditions,
exit conditions (close orders emitted first), entry signals turned into
market orders sized from `current_capital × max_position_size%`, and the
rate-limiter timestamp reset.  `now` stands for `datetime.utcnow()` in
seconds (for gaps under a day, `timedelta.seconds` is the elapsed
seconds). -/
def evaluate_strategy (sess : PaperSession) (strat : PaperStrategy)
    (st : PaperState) (now : ℕ) (tick_price : ℚ) : PaperState × List PaperAction :=
  let rate_limited : Bool :=
    match st.last_signal_time with
    | some last => decide (now - last < sess.update_interval)
    | none => false
  if rate_limited then (st, [])
  else
    let st1 := calculate_real_time_indicators st tick_price
    let entry_sides := paper_entry_signals strat st1
    let exit_actions : List PaperAction :=
      match paper_evaluate_exit_conditions sess st1 tick_price with
      | some (reason, price) => [PaperAction.close_order reason price]
      | none => []
    let entry_actions := entry_sides.map (fun side =>
      let position_size_usd := st1.capital * (sess.max_position_size / 100)
      PaperAction.entry_order side (position_size_usd / tick_price))
    ({ st1 with last_signal_time := some now }, exit_actions ++ entry_actions)

/-- `PaperTradingEngine.on_market_data_update` (paper engine lines
175-192): record the latest price, refresh position P&L, run the fill
simulator over pending orders, and — only when the session is active —
run the rate-limited strategy evaluation. -/
def on_market_data_update (sess : PaperSession) (strat : PaperStrategy)
    (st : PaperState) (now : ℕ) (tick_price : ℚ) (bid ask : Option ℚ) :
    PaperState × List PaperAction :=
  let st1 := update_position_pnl { st with latest_price := some tick_price } tick_price
  let st2 := check_pending_orders st1 tick_price bid ask
  if sess.status_active then evaluate_strategy sess strat st2 now tick_price
  else (st2, [])

/-! ## Concrete fixtures used by witnesses and counterexamples -/

/-- A zero-commission backtest configuration risking 10% of cash per
entry, no stop-loss/take-profit. -/
def cfg_demo : BacktestConfig :=
  { initial_capital := 1000, max_position_size := some 10,
    stop_loss_pct := none, take_profit_pct := none, commission := 0 }

/-- Entry signals: a single long signal at bar 0. -/
def entry_long_once : ℕ → Bool × Bool :=
  fun t => if t = 0 then (true, false) else (false, false)

/-- Entry signals: long and short fire on every bar. -/
def entry_both_always : ℕ → Bool × Bool := fun _ => (true, true)

/-- Exit signals: the strategy exit condition never fires. -/
def exit_never : ℕ → OrderSide → Bool := fun _ _ => false

/-- The starting portfolio of `cfg_demo`. -/
def port_demo : Portfolio :=
  { cash := 1000, positions := 0, open_trades := [], closed_trades := [],
    equity_history := [] }

/-! ## Shared helper lemmas -/

lemma list_sum_pos_of_mem {l : List ℚ} (hnn : ∀ a ∈ l, 0 ≤ a) (hex : ∃ a ∈ l, 0 < a) :
    0 < l.sum := by
  induction l with
  | nil => simp at hex
  | cons a t ih =>
    rw [List.sum_cons]
    rcases hex with ⟨b, hb, hbpos⟩
    rcases List.mem_cons.mp hb with rfl | hbt
    · have : 0 ≤ t.sum := List.sum_nonneg fun x hx => hnn x (List.mem_cons_of_mem _ hx)
      linarith
    · have ha : 0 ≤ a := hnn a (List.mem_cons_self a t)
      have : 0 < t.sum := ih (fun x hx => hnn x (List.mem_cons_of_mem _ hx)) ⟨b, hbt, hbpos⟩
      linarith

lemma list_sum_eq_zero {l : List ℚ} (h : ∀ a ∈ l, a = 0) : l.sum = 0 := by
  induction l with
  | nil => rfl
  | cons a t ih =>
    rw [List.sum_cons, h a (List.mem_cons_self a t),
      ih fun x hx => h x (List.mem_cons_of_mem _ hx), add_zero]

lemma open_trade_open_len (cfg : BacktestConfig) (p : Portfolio) (counter : ℕ)
    (side : OrderSide) (t : ℕ) (price : ℚ) :
    (open_trade cfg p counter side t price).portfolio.open_trades.length
      ≤ p.open_trades.length + 1 := by
  unfold open_trade
  by_cases hc : p.cash < calculate_position_size cfg p.cash price * price +
      calculate_position_size cfg p.cash price * price * cfg.commission
  · simp [hc]
  · simp [hc]

lemma close_trade_open_len (cfg : BacktestConfig) (p : Portfolio) (trade : Trade) (t : ℕ)
    (reason : ExitReason) (data : Option ℚ) (close : ℚ) :
    (close_trade cfg p trade t reason data close).open_trades.length
      ≤ p.open_trades.length := by
  unfold close_trade
  by_cases hm : trade ∈ p.open_trades
  · simpa [hm] using List.length_eraseP_le p.open_trades
  · simp [hm]

lemma process_exits_open_len (cfg : BacktestConfig) (exit_sig : OrderSide → Bool)
    (t : ℕ) (close : ℚ) (snapshot : List Trade) (p : Portfolio) :
    (process_exits cfg exit_sig t close snapshot p).open_trades.length
      ≤ p.open_trades.length := by
  induction snapshot generalizing p with
  | nil => exact Nat.le_refl _
  | cons tr rest ih =>
    unfold process_exits
    rw [List.foldl_cons]
    refine le_trans (ih _) ?_
    cases h : evaluate_exit_conditions tr close (exit_sig tr.side) with
    | none => simp [h]
    | some rp =>
      rcases rp with ⟨reason, price⟩
      simp only [h]
      exact close_trade_open_len ..

lemma process_entries_open_le3 (cfg : BacktestConfig) (sigs : List OrderSide)
    (t : ℕ) (close : ℚ) (s : EngineState)
    (h : s.portfolio.open_trades.length ≤ 3) :
    (process_entries cfg sigs t close s).portfolio.open_trades.length ≤ 3 := by
  induction sigs generalizing s with
  | nil => exact h
  | cons side rest ih =>
    unfold process_entries
    rw [List.foldl_cons]
    apply ih
    by_cases hlt : s.portfolio.open_trades.length < 3
    · simp only [hlt, if_true]
      exact le_trans (open_trade_open_len ..) (by omega)
    · simpa [hlt] using h

lemma update_portfolio_metrics_open (p : Portfolio) (t : ℕ) (c : ℚ) :
    (update_portfolio_metrics p t c).open_trades = p.open_trades := rfl

lemma process_bar_open_le3 (cfg : BacktestConfig)
    (entry_sig : ℕ → Bool × Bool) (exit_sig : ℕ → OrderSide → Bool)
    (s : EngineState) (bar : ℕ × ℚ)
    (h : s.portfolio.open_trades.length ≤ 3) :
    (process_bar cfg entry_sig exit_sig s bar).portfolio.open_trades.length ≤ 3 := by
  have hexit := process_exits_open_len cfg (exit_sig bar.1) bar.1 bar.2
    s.portfolio.open_trades s.portfolio
  simp only [process_bar, update_portfolio_metrics_open]
  split
  · next hlt => exact process_entries_open_le3 _ _ _ _ _ (le_of_lt hlt)
  · exact le_trans hexit h

/-! ## Claims -/

/-- **C1.**  The claim states that every recorded equity-curve point
equals cash plus the mark-to-market value of the open positions
(quantity × current price), and that the final point of a completed
backtest equals cash.  Evaluating the engine on a concrete two-bar run —
initial capital 1000, 10% sizing, zero commission, one long entry at bar
0 (price 2, quantity 50, cash 900 after entry), closes 2 then 4 — shows
the code records 1100 and 1300 instead of the mark-to-market values
1000 (= 900 + 50·2) and 1100 (= 900 + 50·4): `open_trade` stores the
dollar value `quantity * price` under the positions key that
`update_portfolio_metrics` multiplies by the price again.  The final
recorded point (1300) also differs from final cash (1100, credited by
the end-of-data force-close after the last point was recorded), and the
positions cell ends at −100 rather than 0. -/
theorem C1_equity_curve_failing_eval :
    (run_backtest cfg_demo entry_long_once exit_never [(0, 2), (1, 4)]).portfolio.equity_history
        = [(0, 1100), (1, 1300)] ∧
    (run_backtest cfg_demo entry_long_once exit_never [(0, 2), (1, 4)]).portfolio.cash = 1100 ∧
    (run_backtest cfg_demo entry_long_once exit_never [(0, 2), (1, 4)]).portfolio.positions
        = -100 ∧
    (run_backtest cfg_demo entry_long_once exit_never [(0, 2), (1, 4)]).portfolio.closed_trades.map
        (fun tr => (tr.quantity, tr.entry_price, tr.exit_price)) = [(50, 2, some 4)] := by
  with_unfolding_all decide

/-- **C2 (amended).**  At no evaluated bar does the number of open trades
exceed the hardcoded limit of 3 (engine.py lines 462-466); the cap is a
literal constant, not the strategy's `max_open_positions` risk
parameter.  Stated over every prefix of bars from any engine state
already within the cap, which covers every state the bar loop ever
reaches from the initial (empty) state. -/
theorem C2_open_trades_hard_cap (cfg : BacktestConfig)
    (entry_sig : ℕ → Bool × Bool) (exit_sig : ℕ → OrderSide → Bool)
    (bars : List (ℕ × ℚ)) (s : EngineState)
    (h : s.portfolio.open_trades.length ≤ 3) :
    (bars.foldl (process_bar cfg entry_sig exit_sig) s).portfolio.open_trades.length ≤ 3 := by
  induction bars generalizing s with
  | nil => exact h
  | cons b rest ih =>
    rw [List.foldl_cons]
    exact ih _ (process_bar_open_le3 cfg entry_sig exit_sig s b h)

/-- Witness for C2: the hard cap instantiated on a concrete one-bar run
from the engine's initial state. -/
theorem C2_open_trades_hard_cap_witness :
    ([(0, 2)].foldl (process_bar cfg_demo entry_both_always exit_never)
        (initial_state cfg_demo)).portfolio.open_trades.length ≤ 3 :=
  C2_open_trades_hard_cap cfg_demo entry_both_always exit_never [(0, 2)]
    (initial_state cfg_demo) (by with_unfolding_all decide)

/-- **C2 counterexample.**  The claim says the open-trade count never
exceeds the strategy's `max_open_positions` risk parameter.  The engine
never reads any such parameter (no `max_open_positions` column exists on
the `Strategy` or `Backtest` models; the paper-trading session's column
is unread by this engine): with `max_open_positions = 1` — a legal value,
the schema admits `1..10` — a bar on which both the long and the short
entry conditions fire leaves 2 trades open, exceeding the parameter. -/
theorem C2_cap_ignores_strategy_parameter :
    ([(0, 2)].foldl (process_bar cfg_demo entry_both_always exit_never)
        (initial_state cfg_demo)).portfolio.open_trades.length = 2 ∧ 1 < 2 := by
  with_unfolding_all decide

/-- An `eval` oracle that raises on every input (e.g. every substituted
text is malformed or references unknown names). -/
def py_eval_raises : String → Option PyVal := fun _ => none

/-- Modelled from CPython semantics of the external `eval` builtin at the
single literal the counterexample reaches: `eval("100.0 > 5")` is the
float comparison `100.0 > 5`, which returns `True`. -/
def py_eval_demo : String → Option PyVal :=
  fun s => if s = "100.0 > 5" then some (PyVal.bool true) else none

/-- **C3 (amended).**  `_evaluate_condition` never raises (the Lean
embedding is a total function) and resolves every failure path to
`False`: an empty condition string, a substituted text containing a
disallowed token, a substituted text with no comparison operator, and
any text on which `eval` raises (malformed expressions, missing
variables).  The disallowed-token scan runs on the text *after* variable
substitution, not on the original string — see the counterexample. -/
theorem C3_error_paths_false (py_eval : String → Option PyVal)
    (condition : String) (values : List (String × String))
    (h : condition = "" ∨ contains_dangerous (substitute_vars condition values) = true
        ∨ has_comparison (substitute_vars condition values) = false
        ∨ py_eval (substitute_vars condition values) = none) :
    evaluate_condition py_eval condition values = PyVal.bool false := by
  unfold evaluate_condition
  by_cases hemp : condition = ""
  · simp [hemp]
  · simp only [hemp, if_false]
    by_cases hd : contains_dangerous (substitute_vars condition values) = true
    · simp [hd]
    · by_cases hc : has_comparison (substitute_vars condition values) = true
      · rcases h with h | h | h | h
        · exact absurd h hemp
        · exact absurd h hd
        · rw [hc] at h; cases h
        · simp [hd, hc, h]
      · simp [hd, hc]

/-- Witness for C3: a well-formed comparison over an unknown variable
(every `eval` call raises a `NameError`) evaluates to `False`. -/
theorem C3_error_paths_false_witness :
    evaluate_condition py_eval_raises "sma_20 > 30" [] = PyVal.bool false :=
  C3_error_paths_false py_eval_raises "sma_20 > 30" []
    (Or.inr (Or.inr (Or.inr rfl)))

/-- **C3 counterexample.**  The claim demands that a condition string
containing a disallowed token (here `open`, on the engine's own
`dangerous_keywords` list as a file-access builtin) evaluate to false.
But the scan runs after variable substitution: with the OHLCV field
`open = 100.0` supplied — as the engine always does when the bar exists —
the condition `"open > 5"` is rewritten to `"100.0 > 5"`, passes the
scan, and evaluates to `True`, not false. -/
theorem C3_substituted_token_evaluates :
    contains_dangerous "open > 5" = true ∧
    substitute_vars "open > 5" [("open", "100.0")] = "100.0 > 5" ∧
    evaluate_condition py_eval_demo "open > 5" [("open", "100.0")] = PyVal.bool true := by
  with_unfolding_all decide

/-- **C4.**  For an open trade whose stop-loss and take-profit prices are
both set (truthy) and whose bar close crosses both thresholds, exit
evaluation returns `stop_loss` at the stop-loss price — never
`take_profit` and never the strategy signal — because
`evaluate_exit_conditions` checks stop-loss first and returns on the
first match, for longs and shorts alike and for either value of the
strategy exit signal. -/
theorem C4_stop_loss_precedence (trade : Trade) (close : ℚ) (exit_signal : Bool)
    (slp tpp : ℚ)
    (hsl : trade.stop_loss_price = some slp) (hsl0 : slp ≠ 0)
    (htp : trade.take_profit_price = some tpp) (htp0 : tpp ≠ 0)
    (hcross : (trade.side = OrderSide.long ∧ close ≤ slp ∧ tpp ≤ close)
        ∨ (trade.side = OrderSide.short ∧ slp ≤ close ∧ close ≤ tpp)) :
    evaluate_exit_conditions trade close exit_signal
      = some (ExitReason.stop_loss, slp) := by
  rcases hcross with ⟨hside, h1, h2⟩ | ⟨hside, h1, h2⟩ <;>
    simp [evaluate_exit_conditions, sl_exit, hsl, hsl0, hside, h1, h2]

/-- Witness for C4: a long trade with stop-loss 100 above take-profit 90
(both thresholds crossed by close 95) exits as `stop_loss` at 100. -/
theorem C4_stop_loss_precedence_witness :
    evaluate_exit_conditions
      { trade_id := 1, side := OrderSide.long, entry_price := 100, quantity := 1,
        entry_time := 0, stop_loss_price := some 100, take_profit_price := some 90 }
      95 true = some (ExitReason.stop_loss, 100) :=
  C4_stop_loss_precedence _ 95 true 100 90 rfl
    (by with_unfolding_all decide) rfl (by with_unfolding_all decide)
    (Or.inl ⟨rfl, by with_unfolding_all decide, by with_unfolding_all decide⟩)

/-- A closed winning trade (`pnl = 10`). -/
def winning_trade_demo : Trade :=
  { trade_id := 1, side := OrderSide.long, entry_price := 1, quantity := 1,
    entry_time := 0, pnl := some 10 }

/-- A closed losing trade (`pnl = -4`). -/
def losing_trade_demo : Trade :=
  { trade_id := 2, side := OrderSide.long, entry_price := 1, quantity := 1,
    entry_time := 0, pnl := some (-4) }

/-- **C5 (amended).**  When the closed-trade list has no losing trades
(or the losers' pnl sums to zero), `_calculate_results` reports
`profit_factor = 0` — the value is present, not absent; when there is at
least one loser with nonzero pnl sum, the reported value equals
Σ winner.pnl / |Σ loser.pnl|. -/
theorem C5_profit_factor_formula (trades : List Trade) :
    ((losing_trades trades = [] ∨ ((losing_trades trades).map pnl0).sum = 0) →
        profit_factor_of trades = 0)
    ∧ (losing_trades trades ≠ [] → ((losing_trades trades).map pnl0).sum ≠ 0 →
        profit_factor_of trades
          = ((winning_trades trades).map pnl0).sum / |((losing_trades trades).map pnl0).sum|) := by
  constructor
  · intro h
    unfold profit_factor_of
    rcases h with h | h <;> simp [h]
  · intro h1 h2
    unfold profit_factor_of
    rw [if_pos ⟨h1, h2⟩, abs_div]
    congr 1
    refine abs_of_nonneg (List.sum_nonneg ?_)
    intro x hx
    rcases List.mem_map.mp hx with ⟨tr, htr, rfl⟩
    have := List.of_mem_filter htr
    have := of_decide_eq_true this
    linarith

/-- Witness for C5: one winner and no losers yields 0; one winner with
pnl 10 and one loser with pnl −4 yields 10/|−4|. -/
theorem C5_profit_factor_formula_witness :
    profit_factor_of [winning_trade_demo] = 0 ∧
    profit_factor_of [winning_trade_demo, losing_trade_demo]
      = ((winning_trades [winning_trade_demo, losing_trade_demo]).map pnl0).sum
          / |((losing_trades [winning_trade_demo, losing_trade_demo]).map pnl0).sum| :=
  ⟨(C5_profit_factor_formula [winning_trade_demo]).1
      (Or.inl (by with_unfolding_all decide)),
   (C5_profit_factor_formula [winning_trade_demo, losing_trade_demo]).2
      (by with_unfolding_all decide) (by with_unfolding_all decide)⟩

/-- **C5 counterexample.**  The claim says that with at least one winning
trade and no losing trades the reported `profit_factor` is undefined
(absent), not zero.  The code's conditional expression falls through to
its `else 0` branch: the field is reported and its value is exactly 0. -/
theorem C5_no_losers_yields_zero :
    winning_trades [winning_trade_demo] = [winning_trade_demo] ∧
    losing_trades [winning_trade_demo] = [] ∧
    profit_factor_of [winning_trade_demo] = 0 := by
  with_unfolding_all decide

/-- **C6.**  When cash is short of the required trade value plus fees,
`open_trade` returns no trade and the portfolio — cash, positions and the
open-trade list — and the trade counter are returned exactly as they
were: the guard rejects before any mutation. -/
theorem C6_insufficient_cash_rejected (cfg : BacktestConfig) (p : Portfolio)
    (counter : ℕ) (side : OrderSide) (t : ℕ) (price : ℚ)
    (h : p.cash < calculate_position_size cfg p.cash price * price
        + calculate_position_size cfg p.cash price * price * cfg.commission) :
    open_trade cfg p counter side t price
      = { trade := none, portfolio := p, counter := counter } := by
  unfold open_trade
  simp [h]

/-- A portfolio holding 50 in cash. -/
def port_50 : Portfolio :=
  { cash := 50, positions := 0, open_trades := [], closed_trades := [],
    equity_history := [] }

/-- A configuration sizing positions at 1000% of cash with 0.1%
commission: from 50 in cash an entry needs 500 plus fees, mirroring the
spec's capital-error scenario. -/
def cfg_oversized : BacktestConfig :=
  { initial_capital := 50, max_position_size := some 1000,
    stop_loss_pct := none, take_profit_pct := none, commission := 1 / 1000 }

/-- Witness for C6: capital 50, attempted entry needing 500 (+ 0.5 fees)
returns no trade and leaves cash at 50. -/
theorem C6_insufficient_cash_rejected_witness :
    open_trade cfg_oversized port_50 0 OrderSide.long 0 10
      = { trade := none, portfolio := port_50, counter := 0 } ∧ port_50.cash = 50 :=
  ⟨C6_insufficient_cash_rejected cfg_oversized port_50 0 OrderSide.long 0 10
      (by with_unfolding_all decide), rfl⟩

lemma update_position_pnl_last_signal (st : PaperState) (price : ℚ) :
    (update_position_pnl st price).last_signal_time = st.last_signal_time := by
  unfold update_position_pnl
  cases st.position <;> rfl

lemma check_pending_orders_last_signal (st : PaperState) (price : ℚ) (bid ask : Option ℚ) :
    (check_pending_orders st price bid ask).last_signal_time = st.last_signal_time := by
  unfold check_pending_orders
  generalize st.pending_orders = l
  induction l generalizing st with
  | nil => rfl
  | cons o rest ih =>
    rw [List.foldl_cons]
    rw [ih]
    cases fill_price_for o price bid ask <;> rfl

/-- **C7 (amended).**  On an active session, a tick arriving within
`update_interval` seconds of the last evaluation for its symbol
short-circuits the *entire* `evaluate_strategy` body — the stop-loss and
take-profit checks included, since `evaluate_exit_conditions` is called
after the rate-limit early return.  Such a tick degenerates to the
position P&L refresh plus the pending-order fill check and emits no
orders at all. -/
theorem C7_rate_limiter_skips_all_evaluation (sess : PaperSession) (strat : PaperStrategy)
    (st : PaperState) (now : ℕ) (price : ℚ) (bid ask : Option ℚ) (last : ℕ)
    (hact : sess.status_active = true)
    (hl : st.last_signal_time = some last)
    (hlim : now - last < sess.update_interval) :
    on_market_data_update sess strat st now price bid ask
      = (check_pending_orders
          (update_position_pnl { st with latest_price := some price } price) price bid ask,
         []) := by
  unfold on_market_data_update
  rw [hact]
  simp only [if_true]
  have h2 : (check_pending_orders
      (update_position_pnl { st with latest_price := some price } price)
      price bid ask).last_signal_time = some last := by
    rw [check_pending_orders_last_signal, update_position_pnl_last_signal]
    exact hl
  unfold evaluate_strategy
  rw [h2]
  simp [hlim]

/-- The demo paper session: active, 5-second rate limit, 10% stop-loss,
no take-profit. -/
def sess_demo : PaperSession :=
  { status_active := true, update_interval := 5, stop_loss_pct := some 10,
    take_profit_pct := none, max_position_size := 25 }

/-- The demo strategy flags (no entry conditions configured). -/
def strat_demo : PaperStrategy := { has_long := false, has_short := false }

/-- A long position of quantity 1 opened at 100. -/
def pos_long_demo : PositionInfo :=
  { side := "long", quantity := 1, entry_price := 100, current_price := 100,
    unrealized_pnl := 0, unrealized_pnl_pct := 0 }

/-- Engine state holding `pos_long_demo` with the last strategy
evaluation at second 10. -/
def st_limited_demo : PaperState :=
  { position := some pos_long_demo, pending_orders := [], latest_price := some 100,
    indicators_present := true, sma20 := some 100, sma50 := some 100, rsi := some 50,
    last_price := some 100, last_signal_time := some 10, capital := 1000 }

/-- Witness for C7: the amended behaviour at a concrete rate-limited
tick (2 seconds after the last evaluation, interval 5). -/
theorem C7_rate_limiter_skips_all_evaluation_witness :
    on_market_data_update sess_demo strat_demo st_limited_demo 12 50 none none
      = (check_pending_orders
          (update_position_pnl { st_limited_demo with latest_price := some 50 } 50)
          50 none none, []) :=
  C7_rate_limiter_skips_all_evaluation sess_demo strat_demo st_limited_demo 12 50
    none none 10 rfl rfl (by with_unfolding_all decide)

/-- **C7 counterexample.**  The claim says a rate-limited tick still gets
its stop-loss check.  Concretely: a long position entered at 100 with a
10% session stop-loss (threshold 90) and a tick at price 50 arriving 2
seconds after the last evaluation (interval 5).  The engine emits no
close order on that tick; the identical state with the limiter clear
immediately emits the `stop_loss` close — so it is precisely the rate
limiter that suppressed the stop-loss exit. -/
theorem C7_rate_limited_tick_skips_stop_loss :
    (on_market_data_update sess_demo strat_demo st_limited_demo 12 50 none none).2 = [] ∧
    (on_market_data_update sess_demo strat_demo
        { st_limited_demo with last_signal_time := none } 12 50 none none).2
      = [PaperAction.close_order "stop_loss" 50] := by
  with_unfolding_all decide

/-- **C9.**  The paper-trading exit evaluator closes nothing for a short
position: every closing branch (stop-loss, take-profit, signal) requires
`position.side == "long"`, so a short position is never closed with exit
reason `stop_loss` or `take_profit` (or any reason), however far the
price has moved and whatever the session's `stop_loss_pct` /
`take_profit_pct` settings. -/
theorem C9_short_position_never_exited (sess : PaperSession) (st : PaperState)
    (price : ℚ) (pos : PositionInfo)
    (hpos : st.position = some pos) (hside : pos.side = "short") :
    paper_evaluate_exit_conditions sess st price = none := by
  unfold paper_evaluate_exit_conditions
  rw [hpos]
  have hne : pos.side ≠ "long" := by
    rw [hside]; decide
  simp [hne]

/-- Witness for C9: a short position entered at 100 with the price at
500 (far against it) and both a stop-loss percentage configured — no
exit fires. -/
theorem C9_short_position_never_exited_witness :
    paper_evaluate_exit_conditions sess_demo
      { st_limited_demo with position := some { pos_long_demo with side := "short" } }
      500 = none :=
  C9_short_position_never_exited sess_demo
    { st_limited_demo with position := some { pos_long_demo with side := "short" } }
    500 { pos_long_demo with side := "short" } rfl rfl

lemma rolling_window_map (f : ℚ → ℚ) (l : List ℚ) (period i : ℕ) :
    rolling_window (l.map f) period i = (rolling_window l period i).map f := by
  simp [rolling_window]

/-- **C8.**  At every price-series row whose RSI rolling window is full
and contains at least one gain and no losses (so the average loss is
zero), the RSI value is exactly 100 — not NaN: the average gain is
positive, `gain/loss` is `+inf` under float semantics, and
`100 - 100/(1 + inf) = 100 - 0 = 100`. -/
theorem C8_rsi_no_losses_is_100 (prices : List ℚ) (period i : ℕ)
    (hper : 0 < period) (hlo : period ≤ i) (hhi : i < prices.length)
    (hgain : ∃ d ∈ rolling_window (deltas prices) period i, 0 < d)
    (hnoloss : ∀ d ∈ rolling_window (deltas prices) period i, 0 ≤ d) :
    rsi_at prices period i = PFloat.val 100 := by
  have hwmapl : rolling_window (loss_series prices) period i
      = (rolling_window (deltas prices) period i).map (fun d => max (-d) 0) := by
    unfold loss_series
    exact rolling_window_map ..
  have hwmapg : rolling_window (gain_series prices) period i
      = (rolling_window (deltas prices) period i).map (fun d => max d 0) := by
    unfold gain_series
    exact rolling_window_map ..
  have hloss0 : window_mean (rolling_window (loss_series prices) period i) = 0 := by
    rw [hwmapl]
    unfold window_mean
    rw [list_sum_eq_zero, zero_div]
    intro a ha
    rcases List.mem_map.mp ha with ⟨d, hd, rfl⟩
    exact max_eq_right (neg_nonpos.mpr (hnoloss d hd))
  have hgainpos : 0 < window_mean (rolling_window (gain_series prices) period i) := by
    rw [hwmapg]
    unfold window_mean
    apply div_pos
    · apply list_sum_pos_of_mem
      · intro a ha
        rcases List.mem_map.mp ha with ⟨d, _, rfl⟩
        exact le_max_right d 0
      · rcases hgain with ⟨d, hd, hdpos⟩
        exact ⟨max d 0, List.mem_map_of_mem _ hd, lt_max_iff.mpr (Or.inl hdpos)⟩
    · rcases hgain with ⟨d, hd, _⟩
      have hlen : 0 < (rolling_window (deltas prices) period i).length :=
        List.length_pos.mpr (List.ne_nil_of_mem hd)
      simpa using (Nat.cast_pos (α := ℚ)).mpr hlen
  simp only [rsi_at]
  rw [hloss0]
  unfold pdivQ
  rw [if_neg (by simp), if_pos hgainpos]
  rfl

/-- Witness for C8: prices doubling every bar, period 3, row 3 — the
window holds three positive deltas and no losses, and RSI is 100. -/
theorem C8_rsi_no_losses_is_100_witness :
    rsi_at [1, 2, 4, 8, 16] 3 3 = PFloat.val 100 :=
  C8_rsi_no_losses_is_100 [1, 2, 4, 8, 16] 3 3
    (by with_unfolding_all decide) (by with_unfolding_all decide)
    (by with_unfolding_all decide) (by with_unfolding_all decide)
    (by with_unfolding_all decide)

lemma close_trade_cash (cfg : BacktestConfig) (p : Portfolio) (trade : Trade) (t : ℕ)
    (reason : ExitReason) (data : Option ℚ) (close : ℚ) :
    (close_trade cfg p trade t reason data close).cash
      = p.cash + (trade.quantity * data.getD close
          - trade.quantity * data.getD close * cfg.commission) := by
  unfold close_trade
  by_cases hm : trade ∈ p.open_trades <;> simp [hm]

/-- **C10 (amended).**  For every trade closed by the backtest engine,
the recorded `pnl` nets only the exit-side fee — the raw directional
price difference times quantity minus the exit fee — while the entry fee
is accumulated into `trade.fees` (together with the exit fee) and never
subtracted from `pnl`.  Consequently, for a *long* trade the open/close
round trip changes cash by exactly `trade.pnl` minus the entry fee, so a
long-only backtest's final cash equals initial capital plus Σ `pnl`
minus Σ entry fees.  (For short trades the code debits cash by the full
entry value at open and credits the exit value at close, so the identity
fails — see the counterexample.) -/
theorem C10_pnl_and_long_cash_identity :
    (∀ (cfg : BacktestConfig) (tr : Trade) (t : ℕ) (reason : ExitReason) (ep : ℚ),
        (mk_closed_trade cfg tr t reason ep).pnl
          = some ((if tr.side = OrderSide.long then (ep - tr.entry_price) * tr.quantity
              else (tr.entry_price - ep) * tr.quantity) - tr.quantity * ep * cfg.commission)
        ∧ (mk_closed_trade cfg tr t reason ep).fees
          = tr.fees + tr.quantity * ep * cfg.commission)
    ∧ (∀ (cfg : BacktestConfig) (p : Portfolio) (counter : ℕ) (t1 t2 : ℕ)
        (price1 price2 : ℚ) (reason : ExitReason) (tr : Trade),
        (open_trade cfg p counter OrderSide.long t1 price1).trade = some tr →
        (close_trade cfg (open_trade cfg p counter OrderSide.long t1 price1).portfolio
            tr t2 reason none price2).cash
          = p.cash + pnl0 (mk_closed_trade cfg tr t2 reason price2) - tr.fees) := by
  constructor
  · intro cfg tr t reason ep
    exact ⟨rfl, rfl⟩
  · intro cfg p counter t1 t2 price1 price2 reason tr h
    rw [close_trade_cash]
    unfold open_trade at h ⊢
    by_cases hc : p.cash < calculate_position_size cfg p.cash price1 * price1
        + calculate_position_size cfg p.cash price1 * price1 * cfg.commission
    · simp [hc] at h
    · simp only [hc, if_false] at h ⊢
      have htr := (Option.some.injEq _ _).mp h
      subst htr
      simp [pnl0, mk_closed_trade]
      ring

/-- A long trade of quantity 50 entered at price 2, as `open_trade`
creates it under `cfg_demo` from `port_demo`. -/
def long_trade_demo : Trade :=
  { trade_id := 1, side := OrderSide.long, entry_price := 2, quantity := 50,
    entry_time := 0 }

/-- Witness for C10: a concrete long round trip under `cfg_demo` (entry
at 2, exit at 4): fees accumulate the exit fee and final cash obeys the
`initial + pnl - entry fee` identity. -/
theorem C10_pnl_and_long_cash_identity_witness :
    (mk_closed_trade cfg_demo long_trade_demo 1 ExitReason.signal 4).fees
        = long_trade_demo.fees + long_trade_demo.quantity * 4 * cfg_demo.commission ∧
    (close_trade cfg_demo (open_trade cfg_demo port_demo 0 OrderSide.long 0 2).portfolio
        long_trade_demo 1 ExitReason.signal none 4).cash
      = port_demo.cash + pnl0 (mk_closed_trade cfg_demo long_trade_demo 1 ExitReason.signal 4)
          - long_trade_demo.fees :=
  ⟨(C10_pnl_and_long_cash_identity.1 cfg_demo long_trade_demo 1 ExitReason.signal 4).2,
   C10_pnl_and_long_cash_identity.2 cfg_demo port_demo 0 0 1 2 4 ExitReason.signal
      long_trade_demo (by with_unfolding_all decide)⟩

/-- The short trade `open_trade` creates under `cfg_demo` from
`port_demo` at price 2: quantity 50, zero entry fees. -/
def short_trade_demo : Trade :=
  { trade_id := 1, side := OrderSide.short, entry_price := 2, quantity := 50,
    entry_time := 0 }

/-- **C10 counterexample.**  The claim's consequence — final cash equals
initial capital plus Σ `trade.pnl` minus Σ entry fees — fails for a
short round trip: opening short at 2 (quantity 50, zero commission)
debits cash to 900; closing at 1 credits 50, leaving 950.  The recorded
`pnl` is +50, so the claimed identity predicts 1000 + 50 - 0 = 1050 ≠
950. -/
theorem C10_short_cash_identity_fails :
    (open_trade cfg_demo port_demo 0 OrderSide.short 0 2).trade = some short_trade_demo ∧
    (close_trade cfg_demo (open_trade cfg_demo port_demo 0 OrderSide.short 0 2).portfolio
        short_trade_demo 1 ExitReason.signal (some 1) 1).cash = 950 ∧
    pnl0 (mk_closed_trade cfg_demo short_trade_demo 1 ExitReason.signal 1) = 50 ∧
    ¬((950 : ℚ) = port_demo.cash + 50 - short_trade_demo.fees) := by
  with_unfolding_all decide

end CryptoBot
